import Mathlib

/-!
Verification of `package_reloader.py` (AutomaticPackageReloader).

The file shallowly embeds the module `package_reloader.py`:
Python strings are Lean `String`s and the character-wise Python string
operations (slicing, `startswith`, `endswith`, `split`, truthiness) are
modelled on the underlying character list. Filesystem and editor services
(`os.path.realpath`, `os.listdir`, `os.path.islink`, `os.path.isdir`,
`os.readlink`, `glob.glob` of the case-bracket pattern, views, windows,
settings) are opaque oracles passed in as structures, since they are
host-environment behaviour, not code of this module. The functions
`reload_package` and `ProgressBar` live in `reloader.py`, which is not part
of the sources here; `reload_package` is modelled as an abstract registry
transformer that either returns or raises, and the progress bar's
`start`/`stop` calls are recorded as trace events.
-/

/-- Python `s.startswith(pre)`: character-wise prefix test. -/
def pyStartswith (s pre : String) : Bool := pre.data.isPrefixOf s.data

/-- Python `s.endswith(suf)`: character-wise suffix test. -/
def pyEndswith (s suf : String) : Bool := suf.data.isSuffixOf s.data

/-- Python slicing `s[n:]` (by characters). -/
def pySliceFrom (s : String) (n : Nat) : String := String.mk (s.data.drop n)

/-- Python `len(s)` (number of characters). -/
def pyLen (s : String) : Nat := s.data.length

/-- Python truthiness of a `str`: nonempty. -/
def pyTruthy (s : String) : Bool := !s.data.isEmpty

/-- Python truthiness of an optional string (`None` and `""` are falsy). -/
def optTruthy : Option String → Bool
  | none => false
  | some s => pyTruthy s

/-- Python `s.split(sep)` for a nonempty separator. -/
def pySplit (s sep : String) : List String := s.splitOn sep

/-- The path separator `os.sep` on Linux and macOS. -/
def linuxSep : String := "/"

/-- The path separator `os.sep` on Windows. -/
def winSep : String := "\\"

/-- Filesystem oracle used by the Linux/macOS `relative_to_spp`. -/
structure LinuxFS where
  realpath : String → String
  listdir : String → List String
  islink : String → Bool
  isdir : String → Bool
  readlink : String → String

/-- Filesystem oracle used by the Windows `relative_to_spp`.
`globCased p` stands for `glob.glob(re.sub(r'([^:/\\])(?=[/\\]|$)', r'[\1]', p))`:
the host filesystem's answers for the case-bracket pattern of `p`. -/
structure WinFS where
  globCased : String → List String
  realpath : String → String

/-- Source: `os.path.join(spp, name)` for a directory path and one component. -/
def pathJoin (a b : String) : String := a ++ linuxSep ++ b

/-- Source (Windows branch), inner helper `casedpath`:
`r = glob(...); return r and r[0] or path`. An empty result list, or a falsy
first element, yields `path` itself (Python `and`/`or` semantics). -/
def casedpath (fs : WinFS) (path : String) : String :=
  match fs.globCased path with
  | [] => path
  | r0 :: _ => if pyTruthy r0 then r0 else path

/-- Source (Windows branch), the inner `for sp in [spp, casedpath(realpath(spp))]`
loop body: `if p.startswith(sp + os.sep): return p[len(sp):]`. -/
def win_inner (p : String) : List String → Option String
  | [] => none
  | sp :: rest =>
    if pyStartswith p (sp ++ winSep) then some (pySliceFrom p (pyLen sp))
    else win_inner p rest

/-- Source (Windows branch), the outer `for p in [path, casedpath(realpath(path))]`
loop: first match of the inner loop wins. -/
def win_outer (sps : List String) : List String → Option String
  | [] => none
  | p :: rest =>
    match win_inner p sps with
    | some r => some r
    | none => win_outer sps rest

/-- Source, Windows `relative_to_spp(path)`: tries the path as given and its
case-normalized variant against the packages path and its case-normalized
variant; returns the tail after the matching prefix, else `None`. -/
def relative_to_spp_windows (fs : WinFS) (spp path : String) : Option String :=
  win_outer [spp, casedpath fs (fs.realpath spp)]
    [path, casedpath fs (fs.realpath path)]

/-- Source (Linux/macOS branch), the `for name in os.listdir(spp)` loop:
skip entries that are not symlinked directories; if the path lies under a
symlink's target, return `os.path.join('/', name, path[len(target + os.sep):])`
(modelled as `"/" ++ name ++ "/" ++ rest`); else keep scanning. -/
def relative_to_spp_scan (fs : LinuxFS) (spp path : String) :
    List String → Option String
  | [] => none
  | name :: rest =>
    if fs.islink (pathJoin spp name) && fs.isdir (pathJoin spp name) then
      if pyStartswith path (fs.readlink (pathJoin spp name) ++ linuxSep) then
        some (linuxSep ++ name ++ linuxSep ++
          pySliceFrom path (pyLen (fs.readlink (pathJoin spp name) ++ linuxSep)))
      else relative_to_spp_scan fs spp path rest
    else relative_to_spp_scan fs spp path rest

/-- Source, Linux/macOS `relative_to_spp(path)`:
`spp = os.path.realpath(sublime.packages_path())`; direct prefix first, then
the scan over the symlinked package directories. -/
def relative_to_spp_linux (fs : LinuxFS) (packages_path path : String) :
    Option String :=
  if pyStartswith path (fs.realpath packages_path ++ linuxSep) then
    some (pySliceFrom path (pyLen (fs.realpath packages_path)))
  else
    relative_to_spp_scan fs (fs.realpath packages_path) path
      (fs.listdir (fs.realpath packages_path))

/-- Spec-side predicate, from the claim's words: on Windows the path lies under
the package search location directly or via the case-normalized variants. -/
def underSpp_windows (fs : WinFS) (spp path : String) : Prop :=
  ∃ p ∈ [path, casedpath fs (fs.realpath path)],
    ∃ sp ∈ [spp, casedpath fs (fs.realpath spp)],
      pyStartswith p (sp ++ winSep) = true

/-- Spec-side predicate, from the claim's words: on Linux/macOS the path lies
under the (real) package search location directly, or under the target of a
symlinked package directory inside it. -/
def underSpp_linux (fs : LinuxFS) (packages_path path : String) : Prop :=
  pyStartswith path (fs.realpath packages_path ++ linuxSep) = true ∨
  ∃ name ∈ fs.listdir (fs.realpath packages_path),
    fs.islink (pathJoin (fs.realpath packages_path) name) = true ∧
    fs.isdir (pathJoin (fs.realpath packages_path) name) = true ∧
    pyStartswith path
      (fs.readlink (pathJoin (fs.realpath packages_path) name) ++ linuxSep) = true

/-- Trace events emitted by `run_async` (observable calls it makes, in order).
`printMsg` is Python `print`, `progressStart`/`progressStop` are
`ProgressBar(...)`/`.start()` and `.stop()`, `runCommand cmd panel` is
`self.window.run_command(cmd, panel)`, `statusMessage` is
`sublime.status_message`, and `reloadPackage pkg verbose` is the call
`reload_package(pkg_name, verbose=...)`. -/
inductive Event where
  | printMsg (s : String)
  | progressStart (label : String)
  | progressStop
  | runCommand (cmd panel : String)
  | statusMessage (s : String)
  | reloadPackage (pkg : String) (verbose : Bool)
deriving DecidableEq

/-- The settings `run_async` reads from `package_reloader.sublime-settings`
(each `get` is used in a Boolean position, so modelled as truthiness). -/
structure PrSettings where
  open_console : Bool
  open_console_on_failure : Bool
  close_console_on_success : Bool
  verbose : Bool
deriving DecidableEq

/-- What one call to `reload_package` does: return normally or raise `e`. -/
inductive ReloadOutcome (ε : Type) where
  | ok
  | raises (e : ε)
deriving DecidableEq

/-- The environment of one `run_async` invocation. `lockHeld` is whether
`reload_lock` is already held by another reload at the non-blocking acquire;
`registry` is the process-wide module registry (opaque, of type `Reg`);
`reload_package` is the abstract engine from `reloader.py` (not among these
sources): it transforms the registry and either returns or raises. -/
structure RunAsyncInput (ε Reg : Type) where
  lockHeld : Bool
  registry : Reg
  settings : PrSettings
  active_panel : Option String
  reload_package : Reg → ReloadOutcome ε × Reg

/-- The observable outcome of one `run_async` invocation: the lock state
after it returns, the registry, the ordered trace of events, and the
exception it propagates to its caller (if any). -/
structure RunAsyncResult (ε Reg : Type) where
  lockHeld : Bool
  registry : Reg
  events : List Event
  exn : Option ε

/-- Source: `PackageReloaderReloadCommand.run_async(self, pkg_name)`.
If the non-blocking acquire of `reload_lock` fails, it prints
`"Reloader is running."` and returns. Otherwise it starts the progress bar,
possibly opens the console, calls `reload_package` inside
`try/except/finally`: on return it possibly hides the console and posts the
success status message; on an exception it possibly shows the console, posts
the failure status message and re-raises; the `finally` block stops the
progress bar and releases the lock on both paths. -/
def run_async {ε Reg : Type} (inp : RunAsyncInput ε Reg) (pkg_name : String) :
    RunAsyncResult ε Reg :=
  if inp.lockHeld then
    { lockHeld := true, registry := inp.registry,
      events := [Event.printMsg "Reloader is running."], exn := none }
  else
    let console_opened : Bool := inp.active_panel == some "console"
    let pre : List Event :=
      Event.progressStart ("Reloading " ++ pkg_name) ::
        (if !console_opened && inp.settings.open_console then
          [Event.runCommand "show_panel" "console"]
        else [])
    match inp.reload_package inp.registry with
    | (ReloadOutcome.ok, reg) =>
      { lockHeld := false, registry := reg,
        events := pre ++ [Event.reloadPackage pkg_name inp.settings.verbose] ++
          (if inp.settings.close_console_on_success then
            [Event.runCommand "hide_panel" "console"]
          else []) ++
          [Event.statusMessage (pkg_name ++ " reloaded."), Event.progressStop],
        exn := none }
    | (ReloadOutcome.raises e, reg) =>
      { lockHeld := false, registry := reg,
        events := pre ++ [Event.reloadPackage pkg_name inp.settings.verbose] ++
          (if inp.settings.open_console_on_failure then
            [Event.runCommand "show_panel" "console"]
          else []) ++
          [Event.statusMessage ("Fail to reload " ++ pkg_name ++ "."),
            Event.progressStop],
        exn := some e }

/-- Source, module body lines 12-15:
`try: reload_lock` / `except NameError: reload_lock = Lock()`.
Re-executing the module body maps the previous binding of `reload_lock`
(`none` when the name is not yet defined) to its new binding; lock objects
are identified by a `Nat` id, `fresh` being the id `Lock()` would mint. -/
def initReloadLock (existing : Option Nat) (fresh : Nat) : Nat :=
  match existing with
  | some l => l
  | none => fresh

/-- Source, line 121: `lock = reload_lock` at the top of `run_async`. The
global `reload_lock` is read exactly once; its value at entry is
`at_entry`, and `at_finally` is what the global holds when the `finally`
block runs (possibly rebound by a reload of this very package in between).
The pair returned is (id of the lock acquired, id of the lock released):
both uses go through the local `lock`, so both are `at_entry`. -/
def run_async_lock_use (at_entry at_finally : Nat) : Nat × Nat :=
  let lock := at_entry
  (lock, lock)

/-- A concrete environment in which the lock is already held. -/
def busyInput : RunAsyncInput Nat Nat :=
  { lockHeld := true, registry := 0,
    settings := ⟨false, false, false, false⟩, active_panel := none,
    reload_package := fun r => (ReloadOutcome.ok, r) }

/-- A concrete free-lock environment whose `reload_package` returns normally. -/
def okInput : RunAsyncInput Nat Nat :=
  { lockHeld := false, registry := 0,
    settings := ⟨false, false, false, false⟩, active_panel := none,
    reload_package := fun r => (ReloadOutcome.ok, r) }

/-- A concrete free-lock environment whose `reload_package` raises error `7`. -/
def raisesInput : RunAsyncInput Nat Nat :=
  { lockHeld := false, registry := 0,
    settings := ⟨false, false, false, false⟩, active_panel := none,
    reload_package := fun r => (ReloadOutcome.raises 7, r) }

/-- A Sublime view as `on_post_save` and `current_package_name` observe it:
`is_scratch` is `view.is_scratch()`, `is_widget` the truthiness of
`view.settings().get('is_widget')`, `file_name` the result of
`view.file_name()` (`None` when the view has no file). -/
structure ViewState where
  is_scratch : Bool
  is_widget : Bool
  file_name : Option String

/-- Source: `PackageReloaderListener.on_post_save(self, view)`, returning
whether `view.window().run_command("package_reloader_reload")` is executed.
`rel` is the module-level `relative_to_spp` and `reload_on_save` the
truthiness of the setting of that name. -/
def on_post_save (rel : String → Option String) (reload_on_save : Bool)
    (v : ViewState) : Bool :=
  if v.is_scratch || v.is_widget then false
  else
    match v.file_name with
    | none => false
    | some f =>
      if pyTruthy f && pyEndswith f ".py" && optTruthy (rel f) then
        reload_on_save
      else false

/-- The window as `PackageReloaderReloadCommand` observes it:
`active_view` is `self.window.active_view()` and `folders` is
`self.window.folders()`. -/
structure WindowState where
  active_view : Option ViewState
  folders : List String

/-- Source: `os.path.basename` (the component after the last separator). -/
def basename (sep s : String) : String := (pySplit s sep).getLastD ""

/-- Source: the property `PackageReloaderReloadCommand.current_package_name`.
`rel` is `relative_to_spp`, `sep` is `os.sep`. `Except.error ()` models the
`IndexError` that `file_path.split(os.sep)[1]` would raise when the split
has fewer than two parts (unreachable for the real `relative_to_spp`, whose
results start with the separator). -/
def current_package_name (rel : String → Option String) (sep : String)
    (w : WindowState) : Except Unit (Option String) :=
  let fromView : Option (Except Unit (Option String)) :=
    match w.active_view with
    | none => none
    | some v =>
      match v.file_name with
      | none => none
      | some f =>
        if pyTruthy f then
          match rel f with
          | none => none
          | some file_path =>
            if pyTruthy file_path && pyEndswith file_path ".py" then
              some (match (pySplit file_path sep)[1]? with
                | some pkg => Except.ok (some pkg)
                | none => Except.error ())
            else none
        else none
  match fromView with
  | some r => r
  | none =>
    match w.folders with
    | [] => Except.ok none
    | f0 :: _ =>
      match rel f0 with
      | none => Except.ok none
      | some first_folder =>
        if pyTruthy first_folder then
          Except.ok (some (basename sep first_folder))
        else Except.ok none

/-- Observable effects of `PackageReloaderReloadCommand.run` (which runs on
the editor thread): showing the input panel, printing to the console, or
starting the background worker thread with `run_async` as its target. -/
inductive RunEffect where
  | promptShown (initialText : String)
  | printMsg (s : String)
  | spawnThread (threadName pkg : String)
deriving DecidableEq

/-- Source: `PackageReloaderReloadCommand.run(self, pkg_name=None)`.
With `pkg_name == "<prompt>"` it shows the input panel prefilled from
`current_package_name`; with `pkg_name` `None` it resolves the package name
via `current_package_name`, printing and returning when that is `None`; with
a resolved name it starts the `Thread(name="AutomaticPackageReloader",
target=self.run_async, args=(pkg_name,))`. An `Except.error` from
`current_package_name` (the `IndexError`) propagates. -/
def run (rel : String → Option String) (sep : String) (w : WindowState)
    (pkg_name : Option String) : Except Unit (List RunEffect) :=
  if pkg_name = some "<prompt>" then
    match current_package_name rel sep w with
    | Except.error e => Except.error e
    | Except.ok cur =>
      Except.ok [RunEffect.promptShown
        (match cur with
          | some p => if pyTruthy p then p else ""
          | none => "")]
  else
    match pkg_name with
    | some p => Except.ok [RunEffect.spawnThread "AutomaticPackageReloader" p]
    | none =>
      match current_package_name rel sep w with
      | Except.error e => Except.error e
      | Except.ok none =>
        Except.ok [RunEffect.printMsg "Cannot detect package name."]
      | Except.ok (some p) =>
        Except.ok [RunEffect.spawnThread "AutomaticPackageReloader" p]

theorem win_inner_ne_none (p : String) (sps : List String) :
    win_inner p sps ≠ none ↔
      ∃ sp ∈ sps, pyStartswith p (sp ++ winSep) = true := by
  induction sps with
  | nil => simp [win_inner]
  | cons sp rest ih =>
    by_cases h : pyStartswith p (sp ++ winSep) = true
    · simp [win_inner, h]
    · simp [win_inner, h, ih]

theorem win_outer_ne_none (sps ps : List String) :
    win_outer sps ps ≠ none ↔
      ∃ p ∈ ps, ∃ sp ∈ sps, pyStartswith p (sp ++ winSep) = true := by
  induction ps with
  | nil => simp [win_outer]
  | cons p rest ih =>
    rcases hinner : win_inner p sps with _ | r
    · have : ¬∃ sp ∈ sps, pyStartswith p (sp ++ winSep) = true := by
        rw [← win_inner_ne_none]
        simp [hinner]
      simp [win_outer, hinner, ih, this]
    · have : ∃ sp ∈ sps, pyStartswith p (sp ++ winSep) = true := by
        rw [← win_inner_ne_none]
        simp [hinner]
      simp [win_outer, hinner, this]

theorem relative_to_spp_scan_ne_none (fs : LinuxFS) (spp path : String)
    (names : List String) :
    relative_to_spp_scan fs spp path names ≠ none ↔
      ∃ name ∈ names,
        fs.islink (pathJoin spp name) = true ∧
        fs.isdir (pathJoin spp name) = true ∧
        pyStartswith path (fs.readlink (pathJoin spp name) ++ linuxSep) = true := by
  induction names with
  | nil => simp [relative_to_spp_scan]
  | cons name rest ih =>
    by_cases h1 : fs.islink (pathJoin spp name) = true
    · by_cases h2 : fs.isdir (pathJoin spp name) = true
      · by_cases h3 :
          pyStartswith path (fs.readlink (pathJoin spp name) ++ linuxSep) = true
        · simp [relative_to_spp_scan, h1, h2, h3]
        · simp [relative_to_spp_scan, h1, h2, h3, ih]
      · simp [relative_to_spp_scan, h1, h2, ih]
    · simp [relative_to_spp_scan, h1, ih]

/-- C6: for every absolute file path, `relative_to_spp` returns a non-`None`
path exactly when the path lies under the editor's package search location —
directly or via a case-normalized variant on Windows, directly (after
`realpath`) or via a symlinked package directory's target on Linux/macOS —
and returns `None` otherwise. -/
theorem c6_relative_to_spp_characterization :
    ∀ (lfs : LinuxFS) (wfs : WinFS) (spp path : String),
      (relative_to_spp_linux lfs spp path ≠ none ↔ underSpp_linux lfs spp path) ∧
      (relative_to_spp_windows wfs spp path ≠ none ↔ underSpp_windows wfs spp path) := by
  intro lfs wfs spp path
  constructor
  · by_cases h : pyStartswith path (lfs.realpath spp ++ linuxSep) = true
    · simp [relative_to_spp_linux, underSpp_linux, h]
    · simp [relative_to_spp_linux, underSpp_linux, h, relative_to_spp_scan_ne_none]
  · rw [relative_to_spp_windows, win_outer_ne_none]
    rfl

/-- C1: when the reload lock is already held by another reload, `run_async`
rejects immediately: the busy message is printed, `reload_package` is never
invoked, no module-registry state changes, no exception escapes, and the
lock (held by the other reload) is untouched. -/
theorem c1_busy_rejected {ε Reg : Type} (inp : RunAsyncInput ε Reg)
    (pkg : String) (h : inp.lockHeld = true) :
    (run_async inp pkg).events = [Event.printMsg "Reloader is running."] ∧
    (run_async inp pkg).registry = inp.registry ∧
    (run_async inp pkg).exn = none ∧
    (run_async inp pkg).lockHeld = inp.lockHeld ∧
    ∀ p v, Event.reloadPackage p v ∉ (run_async inp pkg).events := by
  simp [run_async, h]

theorem c1_busy_rejected_witness :
    (run_async busyInput "Foo").events = [Event.printMsg "Reloader is running."] ∧
    (run_async busyInput "Foo").registry = busyInput.registry ∧
    (run_async busyInput "Foo").exn = none ∧
    (run_async busyInput "Foo").lockHeld = busyInput.lockHeld ∧
    ∀ p v, Event.reloadPackage p v ∉ (run_async busyInput "Foo").events :=
  c1_busy_rejected busyInput "Foo" rfl

/-- C2: when `run_async` acquires the lock (the non-blocking acquire
succeeds), the lock is released on every exit path — whatever
`reload_package` does, returning or raising — so after `run_async` completes
the lock is never left held. -/
theorem c2_lock_released {ε Reg : Type} (inp : RunAsyncInput ε Reg)
    (pkg : String) (h : inp.lockHeld = false) :
    (run_async inp pkg).lockHeld = false := by
  rcases hr : inp.reload_package inp.registry with ⟨o, reg⟩
  cases o <;> simp [run_async, h, hr]

theorem c2_lock_released_witness :
    (run_async okInput "Foo").lockHeld = false ∧
    (run_async raisesInput "Foo").lockHeld = false :=
  ⟨c2_lock_released okInput "Foo" rfl, c2_lock_released raisesInput "Foo" rfl⟩

/-- C3: when a module's re-execution inside `reload_package` raises any
error, `run_async` stops, releases the lock, stops the progress indicator,
and re-raises the original exception object unchanged to its caller. -/
theorem c3_exception_propagated {ε Reg : Type} (inp : RunAsyncInput ε Reg)
    (pkg : String) (e : ε) (reg : Reg) (hlock : inp.lockHeld = false)
    (hraise : inp.reload_package inp.registry = (ReloadOutcome.raises e, reg)) :
    (run_async inp pkg).exn = some e ∧
    (run_async inp pkg).lockHeld = false ∧
    Event.progressStop ∈ (run_async inp pkg).events := by
  simp [run_async, hlock, hraise]

theorem c3_exception_propagated_witness :
    (run_async raisesInput "Foo").exn = some 7 ∧
    (run_async raisesInput "Foo").lockHeld = false ∧
    Event.progressStop ∈ (run_async raisesInput "Foo").events :=
  c3_exception_propagated raisesInput "Foo" 7 0 rfl rfl

/-- C4: on every reload attempt that passes the lock, the progress indicator
is started before any unloading or reimporting work (the `reload_package`
call) and `progress_bar.stop()` is executed at the very end on both the
success path and every exception path: the trace begins with
`progressStart`, ends with `progressStop`, and the `reload_package` call
lies strictly between the two. -/
theorem c4_progress_wraps_reload {ε Reg : Type} (inp : RunAsyncInput ε Reg)
    (pkg : String) (h : inp.lockHeld = false) :
    ∃ mid : List Event,
      (run_async inp pkg).events =
        Event.progressStart ("Reloading " ++ pkg) :: mid ++ [Event.progressStop] ∧
      Event.reloadPackage pkg inp.settings.verbose ∈ mid := by
  rcases hr : inp.reload_package inp.registry with ⟨o, reg⟩
  cases o with
  | ok =>
    refine ⟨(if !(inp.active_panel == some "console") && inp.settings.open_console then
        [Event.runCommand "show_panel" "console"] else []) ++
      [Event.reloadPackage pkg inp.settings.verbose] ++
      (if inp.settings.close_console_on_success then
        [Event.runCommand "hide_panel" "console"] else []) ++
      [Event.statusMessage (pkg ++ " reloaded.")], ?_, by simp⟩
    simp [run_async, h, hr]
  | raises e =>
    refine ⟨(if !(inp.active_panel == some "console") && inp.settings.open_console then
        [Event.runCommand "show_panel" "console"] else []) ++
      [Event.reloadPackage pkg inp.settings.verbose] ++
      (if inp.settings.open_console_on_failure then
        [Event.runCommand "show_panel" "console"] else []) ++
      [Event.statusMessage ("Fail to reload " ++ pkg ++ ".")], ?_, by simp⟩
    simp [run_async, h, hr]

theorem c4_progress_wraps_reload_witness :
    ∃ mid : List Event,
      (run_async okInput "Foo").events =
        Event.progressStart ("Reloading " ++ "Foo") :: mid ++ [Event.progressStop] ∧
      Event.reloadPackage "Foo" okInput.settings.verbose ∈ mid :=
  c4_progress_wraps_reload okInput "Foo" rfl

/-- C5: the reload lock is a singleton preserved across reloads of the
reloader's own package. Re-executing the module body when `reload_lock` is
already defined leaves it bound to the same lock object (the `try` head
succeeds and the `except NameError` assignment never runs), and `run_async`
captures the global in the local `lock` before acquiring, so the lock it
releases in `finally` is the very lock it acquired even if the global is
rebound in between. -/
theorem c5_singleton_lock :
    (∀ l fresh : Nat, initReloadLock (some l) fresh = l) ∧
    (∀ at_entry at_finally : Nat,
      (run_async_lock_use at_entry at_finally).1 =
        (run_async_lock_use at_entry at_finally).2) :=
  ⟨fun _ _ => rfl, fun _ _ => rfl⟩

/-- C7: every completed reload attempt (one that passes the lock) emits a
final status message naming the target package: the success message when
`reload_package` returns, the failure message when it raises — and in the
failure case the underlying error is re-raised to the caller. -/
theorem c7_final_status {ε Reg : Type} (inp : RunAsyncInput ε Reg)
    (pkg : String) (h : inp.lockHeld = false) :
    (∀ reg, inp.reload_package inp.registry = (ReloadOutcome.ok, reg) →
      Event.statusMessage (pkg ++ " reloaded.") ∈ (run_async inp pkg).events ∧
      (run_async inp pkg).exn = none) ∧
    (∀ e reg, inp.reload_package inp.registry = (ReloadOutcome.raises e, reg) →
      Event.statusMessage ("Fail to reload " ++ pkg ++ ".") ∈
        (run_async inp pkg).events ∧
      (run_async inp pkg).exn = some e) := by
  constructor
  · intro reg hr
    simp [run_async, h, hr]
  · intro e reg hr
    simp [run_async, h, hr]

theorem c7_final_status_witness :
    (Event.statusMessage ("Foo" ++ " reloaded.") ∈ (run_async okInput "Foo").events ∧
      (run_async okInput "Foo").exn = none) ∧
    (Event.statusMessage ("Fail to reload " ++ "Foo" ++ ".") ∈
        (run_async raisesInput "Foo").events ∧
      (run_async raisesInput "Foo").exn = some 7) :=
  ⟨(c7_final_status okInput "Foo" rfl).1 0 rfl,
   (c7_final_status raisesInput "Foo" rfl).2 7 0 rfl⟩

theorem append_ne_empty_left (a b : String) (ha : a ≠ "") : a ++ b ≠ "" := by
  intro h
  have hd : a.data ++ b.data = [] := by
    have := congrArg String.data h
    rwa [String.data_append] at this
  rcases List.append_eq_nil.mp hd with ⟨h1, _⟩
  exact ha (String.ext h1)

theorem pySliceFrom_ne_empty (p sp sep : String) (hsep : sep ≠ "")
    (h : pyStartswith p (sp ++ sep) = true) : pySliceFrom p (pyLen sp) ≠ "" := by
  unfold pyStartswith at h
  rw [String.data_append, List.isPrefixOf_iff_prefix] at h
  obtain ⟨t, ht⟩ := h
  unfold pySliceFrom pyLen
  intro hc
  have hdata : p.data.drop sp.data.length = [] := congrArg String.data hc
  rw [← ht, List.append_assoc, List.drop_left] at hdata
  rcases List.append_eq_nil.mp hdata with ⟨h1, _⟩
  exact hsep (String.ext h1)

theorem pyTruthy_of_ne_empty (s : String) (h : s ≠ "") : pyTruthy s = true := by
  unfold pyTruthy
  rcases hd : s.data with _ | ⟨c, cs⟩
  · exact absurd (String.ext hd) h
  · rfl

theorem pyTruthy_of_endswith (f suf : String) (hsuf : suf ≠ "")
    (h : pyEndswith f suf = true) : pyTruthy f = true := by
  unfold pyEndswith at h
  rw [List.isSuffixOf_iff_suffix] at h
  obtain ⟨t, ht⟩ := h
  apply pyTruthy_of_ne_empty
  intro hf
  have hd : f.data = [] := congrArg String.data hf
  rw [← ht] at hd
  rcases List.append_eq_nil.mp hd with ⟨_, h2⟩
  exact hsuf (String.ext h2)

theorem optTruthy_iff_ne_none (o : Option String)
    (ho : ∀ s, o = some s → s ≠ "") : optTruthy o = true ↔ o ≠ none := by
  rcases h : o with _ | s
  · simp [optTruthy]
  · have hs := pyTruthy_of_ne_empty s (ho s h)
    simp [optTruthy, hs]

theorem relative_to_spp_scan_ne_empty (fs : LinuxFS) (spp path : String)
    (names : List String) (s : String)
    (h : relative_to_spp_scan fs spp path names = some s) : s ≠ "" := by
  induction names with
  | nil => simp [relative_to_spp_scan] at h
  | cons name rest ih =>
    rw [relative_to_spp_scan] at h
    by_cases h1 : fs.islink (pathJoin spp name) && fs.isdir (pathJoin spp name)
    · rw [if_pos h1] at h
      by_cases h2 :
          pyStartswith path (fs.readlink (pathJoin spp name) ++ linuxSep) = true
      · rw [if_pos h2] at h
        have hs := (Option.some_inj.mp h).symm
        rw [hs]
        exact append_ne_empty_left _ _
          (append_ne_empty_left _ _ (append_ne_empty_left _ _ (by decide)))
      · rw [if_neg h2] at h
        exact ih h
    · rw [if_neg h1] at h
      exact ih h

theorem relative_to_spp_linux_ne_empty (fs : LinuxFS) (spp path s : String)
    (h : relative_to_spp_linux fs spp path = some s) : s ≠ "" := by
  rw [relative_to_spp_linux] at h
  by_cases h1 : pyStartswith path (fs.realpath spp ++ linuxSep) = true
  · rw [if_pos h1] at h
    have hs := (Option.some_inj.mp h).symm
    rw [hs]
    exact pySliceFrom_ne_empty path (fs.realpath spp) linuxSep (by decide) h1
  · rw [if_neg h1] at h
    exact relative_to_spp_scan_ne_empty fs (fs.realpath spp) path _ s h

theorem win_inner_ne_empty (p : String) (sps : List String) (s : String)
    (h : win_inner p sps = some s) : s ≠ "" := by
  induction sps with
  | nil => simp [win_inner] at h
  | cons sp rest ih =>
    rw [win_inner] at h
    by_cases h1 : pyStartswith p (sp ++ winSep) = true
    · rw [if_pos h1] at h
      have hs := (Option.some_inj.mp h).symm
      rw [hs]
      exact pySliceFrom_ne_empty p sp winSep (by decide) h1
    · rw [if_neg h1] at h
      exact ih h

theorem win_outer_ne_empty (sps ps : List String) (s : String)
    (h : win_outer sps ps = some s) : s ≠ "" := by
  induction ps with
  | nil => simp [win_outer] at h
  | cons p rest ih =>
    rw [win_outer] at h
    rcases hinner : win_inner p sps with _ | r
    · rw [hinner] at h
      exact ih h
    · rw [hinner] at h
      have hs := (Option.some_inj.mp h).symm
      rw [hs]
      exact win_inner_ne_empty p sps r hinner

theorem relative_to_spp_windows_ne_empty (fs : WinFS) (spp path s : String)
    (h : relative_to_spp_windows fs spp path = some s) : s ≠ "" :=
  win_outer_ne_empty _ _ s h

theorem on_post_save_iff (rel : String → Option String)
    (hrel : ∀ f s, rel f = some s → s ≠ "") (ros : Bool) (v : ViewState) :
    on_post_save rel ros v = true ↔
      (v.is_scratch = false ∧ v.is_widget = false ∧
       ∃ f, v.file_name = some f ∧ pyEndswith f ".py" = true ∧
         rel f ≠ none ∧ ros = true) := by
  unfold on_post_save
  by_cases hsc : v.is_scratch = true
  · simp [hsc]
  · by_cases hwd : v.is_widget = true
    · simp [hwd]
    · rw [Bool.not_eq_true] at hsc hwd
      rcases hfn : v.file_name with _ | f
      · simp [hsc, hwd, hfn]
      · by_cases hpy : pyEndswith f ".py" = true
        · have htr := pyTruthy_of_endswith f ".py" (by decide) hpy
          by_cases hrf : rel f = none
          · simp [hsc, hwd, hfn, hpy, hrf, optTruthy]
          · have hot := (optTruthy_iff_ne_none (rel f) (hrel f)).mpr hrf
            simp [hsc, hwd, hfn, hpy, htr, hot, hrf]
        · simp [hsc, hwd, hfn, hpy]

/-- C9: a post-save event triggers the reload command exactly when the view
is neither scratch nor a widget, the saved file has a non-`None` name ending
in `.py`, `relative_to_spp` maps it to a non-`None` location under the
package search path, and the `reload_on_save` setting is enabled — stated
for the module's `relative_to_spp` of both platforms. -/
theorem c9_on_post_save_trigger :
    ∀ (lfs : LinuxFS) (wfs : WinFS) (spp : String) (ros : Bool) (v : ViewState),
      (on_post_save (relative_to_spp_linux lfs spp) ros v = true ↔
        (v.is_scratch = false ∧ v.is_widget = false ∧
         ∃ f, v.file_name = some f ∧ pyEndswith f ".py" = true ∧
           relative_to_spp_linux lfs spp f ≠ none ∧ ros = true)) ∧
      (on_post_save (relative_to_spp_windows wfs spp) ros v = true ↔
        (v.is_scratch = false ∧ v.is_widget = false ∧
         ∃ f, v.file_name = some f ∧ pyEndswith f ".py" = true ∧
           relative_to_spp_windows wfs spp f ≠ none ∧ ros = true)) := by
  intro lfs wfs spp ros v
  constructor
  · exact on_post_save_iff _ (fun f s => relative_to_spp_linux_ne_empty lfs spp f s)
      ros v
  · exact on_post_save_iff _ (fun f s => relative_to_spp_windows_ne_empty wfs spp f s)
      ros v

/-- C8: for every invocation of the reload command with a resolved package
name — given explicitly (and not the `"<prompt>"` sentinel), or detected via
`current_package_name` — `run`'s only effect is starting the background
worker thread named `AutomaticPackageReloader` with `run_async` as its
target; `run_async` is never executed on the calling editor thread. -/
theorem c8_background_thread (rel : String → Option String) (sep : String)
    (w : WindowState) (pkg_name : Option String) (p : String)
    (h : (pkg_name = some p ∧ p ≠ "<prompt>") ∨
      (pkg_name = none ∧
        current_package_name rel sep w = Except.ok (some p))) :
    run rel sep w pkg_name =
      Except.ok [RunEffect.spawnThread "AutomaticPackageReloader" p] := by
  rcases h with ⟨hp, hne⟩ | ⟨hp, hcur⟩
  · subst hp
    simp [run, hne]
  · subst hp
    simp [run, hcur]

theorem c8_background_thread_witness :
    run (fun _ => none) linuxSep ⟨none, []⟩ (some "Foo") =
      Except.ok [RunEffect.spawnThread "AutomaticPackageReloader" "Foo"] :=
  c8_background_thread (fun _ => none) linuxSep ⟨none, []⟩ (some "Foo") "Foo"
    (Or.inl ⟨rfl, by decide⟩)

/-- C10: when the reload command is run with `pkg_name` `None` and no package
name can be detected, `run` prints `"Cannot detect package name."` and
returns: its effect list is exactly that print — no worker thread is
started, the lock is never touched, and nothing is reloaded. -/
theorem c10_cannot_detect (rel : String → Option String) (sep : String)
    (w : WindowState)
    (h : current_package_name rel sep w = Except.ok none) :
    run rel sep w none =
      Except.ok [RunEffect.printMsg "Cannot detect package name."] ∧
    ∀ tn p, RunEffect.spawnThread tn p ∉
      ([RunEffect.printMsg "Cannot detect package name."] : List RunEffect) := by
  constructor
  · simp [run, h]
  · intro tn p
    simp

theorem c10_cannot_detect_witness :
    run (fun _ => none) linuxSep ⟨none, []⟩ none =
      Except.ok [RunEffect.printMsg "Cannot detect package name."] ∧
    ∀ tn p, RunEffect.spawnThread tn p ∉
      ([RunEffect.printMsg "Cannot detect package name."] : List RunEffect) :=
  c10_cannot_detect (fun _ => none) linuxSep ⟨none, []⟩ rfl
